import Mathlib

/-!
# Verification of the PubMed Semantic Search frontend's search controller

Shallow embedding of `src/components/SearchPage.jsx`: the `handleSearch`
submit handler (request construction, response normalization, error
recovery, loading-flag handling), the expand/collapse toggle, and the
three render conditions (result-card list, "no results" panel, loading
panel).

JavaScript idioms are embedded explicitly:
- optional fields of the backend JSON are `Option`s;
- `x || default` defaulting is embedded per JS truthiness: the empty
  string and the number 0 are falsy, every array (even `[]`) is truthy;
- `window.__searchMeta` (initially `undefined`) is an `Option SearchMeta`
  field of the state;
- JS numbers carrying relevance scores are embedded as `Rat`.
-/

/-- The nested `record` substructure of a backend response item
(`{title, authors, journal, year, abstract, mesh_terms, url_full_text?,
url_pubmed?}`); every field may be absent. -/
structure PubRecord where
  title : Option String
  authors : Option String
  journal : Option String
  year : Option Int
  abstract : Option String
  mesh_terms : Option (List String)
  url_full_text : Option String
  url_pubmed : Option String
deriving DecidableEq

/-- One backend response item `{score, record}`; both fields may be absent. -/
structure ResponseItem where
  score : Option Rat
  record : Option PubRecord
deriving DecidableEq

/-- The backend response body: either a bare JSON array of items or an
object `{results?, total_results?, results_range?}` (JSX line 44
distinguishes these with `Array.isArray`). -/
inductive ResponseData where
  | arr (items : List ResponseItem)
  | obj (results : Option (List ResponseItem)) (total_results : Option Nat)
        (results_range : Option String)
deriving DecidableEq

/-- `item.record?.year || ''` yields a number when `year` is present and
truthy (nonzero), and the empty string otherwise: the normalized `year`
field is a number or a string. -/
inductive JsYear where
  | num (n : Int)
  | str (s : String)
deriving DecidableEq

/-- The flat normalized result shape built by the `.map` at JSX lines 46-57. -/
structure SearchResult where
  id : Nat
  title : String
  authors : String
  journal : String
  year : JsYear
  abstract : String
  relevanceScore : Rat
  mesh_terms : List String
  url_full_text : Option String
  url_pubmed : Option String
deriving DecidableEq

/-- JS `String.prototype.trim`: strip whitespace from both ends of the
string (embedded over the character list; the ASCII whitespace characters
cover every input the claims mention). -/
def jsTrim (s : String) : String :=
  ⟨((s.data.dropWhile Char.isWhitespace).reverse.dropWhile
      Char.isWhitespace).reverse⟩

/-- JS `s || ''` for an optional string: `undefined` and `''` are falsy,
both give `''`, which coincides with plain defaulting. -/
def jsOrEmptyString : Option String → String
  | none => ""
  | some s => s

/-- JS `n || ''` for an optional number: `undefined` and `0` are falsy and
give the string `''`; any other number passes through. -/
def jsOrEmptyYear : Option Int → JsYear
  | none => JsYear.str ""
  | some n => if n = 0 then JsYear.str "" else JsYear.num n

/-- JS `s || null` for an optional string: `undefined` and the falsy `''`
give `null`; any other string passes through. -/
def jsOrNull : Option String → Option String
  | none => none
  | some s => if s = "" then none else some s

/-- JS `q || 0` for an optional number: `undefined` and the falsy `0` both
give `0`, which coincides with plain defaulting. -/
def jsOrZero : Option Rat → Rat
  | none => 0
  | some q => q

/-- JS `l || []` for an optional array: only `undefined` is falsy (every
array, even `[]`, is truthy). -/
def jsOrEmptyList : Option (List String) → List String
  | none => []
  | some l => l

/-- The mapping function of JSX lines 46-57: one response item at index
`idx` becomes one flat result, with every absent field defaulted
(`item.record?.f || default` via optional chaining and JS truthiness). -/
def normalizeItem (idx : Nat) (item : ResponseItem) : SearchResult :=
  { id := idx + 1
    title := jsOrEmptyString (item.record.bind PubRecord.title)
    authors := jsOrEmptyString (item.record.bind PubRecord.authors)
    journal := jsOrEmptyString (item.record.bind PubRecord.journal)
    year := jsOrEmptyYear (item.record.bind PubRecord.year)
    abstract := jsOrEmptyString (item.record.bind PubRecord.abstract)
    relevanceScore := jsOrZero item.score
    mesh_terms := jsOrEmptyList (item.record.bind PubRecord.mesh_terms)
    url_full_text := jsOrNull (item.record.bind PubRecord.url_full_text)
    url_pubmed := jsOrNull (item.record.bind PubRecord.url_pubmed) }

/-- JSX line 44: `Array.isArray(data) ? data : (data?.results || [])`.
A bare array is used directly; otherwise the `results` field is taken,
defaulting to `[]` when absent (a present array is always truthy). -/
def extractList : ResponseData → List ResponseItem
  | ResponseData.arr items => items
  | ResponseData.obj results _ _ => results.getD []

/-- The `(list || []).map((item, idx) => ...)` of JSX line 46: `list` is
already an array here, so this maps `normalizeItem` with indices from 0. -/
def mapNormalize : Nat → List ResponseItem → List SearchResult
  | _, [] => []
  | idx, item :: rest => normalizeItem idx item :: mapNormalize (idx + 1) rest

/-- Full normalization of a successful response body into the flat list. -/
def normalizeData (data : ResponseData) : List SearchResult :=
  mapNormalize 0 (extractList data)

/-- The pagination-metadata side channel stored on `window.__searchMeta`
(JSX lines 60-63): `data?.total_results` / `data?.results_range` are
`undefined` on a bare array. -/
structure SearchMeta where
  total_results : Option Nat
  results_range : Option String
deriving DecidableEq

/-- Extraction of the metadata side channel from the response body. -/
def extractMeta : ResponseData → SearchMeta
  | ResponseData.arr _ => ⟨none, none⟩
  | ResponseData.obj _ t r => ⟨t, r⟩

/-- The advisory filter selections (JSX lines 12-16); `handleSearch` never
reads or writes them. -/
structure Filters where
  year : String
  journal : String
  sortBy : String
deriving DecidableEq

/-- The SearchPage component state: the `useState` hooks of JSX lines 6-16
plus the `window.__searchMeta` side channel (`none` = never written). -/
structure SearchState where
  searchQuery : String
  searchResults : List SearchResult
  isLoading : Bool
  mode : String
  useMesh : Bool
  expandedIds : Finset Nat
  filters : Filters
  searchMeta : Option SearchMeta
deriving DecidableEq

/-- The initial state of the component (the `useState` initializers). -/
def initState : SearchState :=
  { searchQuery := ""
    searchResults := []
    isLoading := false
    mode := "semantic"
    useMesh := true
    expandedIds := ∅
    filters := { year := "", journal := "", sortBy := "relevance" }
    searchMeta := none }

/-- How the awaited `fetch` resolves, as observed by `handleSearch`:
a 2xx response with a parsed JSON body, a non-2xx response (`!resp.ok`)
with its status, or a rejection (network failure / JSON parse failure)
landing in the `catch` block. -/
inductive FetchOutcome where
  | success (data : ResponseData)
  | httpError (status : Nat)
  | networkError
deriving DecidableEq

/-- The two failure outcomes: non-2xx status or a thrown error. -/
def FetchOutcome.isFailure : FetchOutcome → Bool
  | FetchOutcome.success _ => false
  | _ => true

/-- The JSON body of the POST request built at JSX lines 29-35. -/
structure RequestBody where
  query : String
  mode : String
  use_mesh : Bool
  max_results : Nat
  retmax : Nat
deriving DecidableEq

/-- The request body sent for the current state: the live query, mode and
MeSH toggle plus the fixed pagination parameters. -/
def requestBody (st : SearchState) : RequestBody :=
  { query := st.searchQuery
    mode := st.mode
    use_mesh := st.useMesh
    max_results := 25
    retmax := 200 }

/-- `setIsLoading(true)` at JSX line 22: the state while the request is in
flight. -/
def handleSearchStarted (st : SearchState) : SearchState :=
  { st with isLoading := true }

/-- The `try`/`catch` body of `handleSearch` (JSX lines 38-67) after the
fetch settles: on success the normalized list and the metadata side
channel are written; on `!resp.ok` or a caught error the result list is
cleared (and nothing else is touched). -/
def settleSearch (st : SearchState) : FetchOutcome → SearchState
  | FetchOutcome.success data =>
      { st with searchResults := normalizeData data
                searchMeta := some (extractMeta data) }
  | FetchOutcome.httpError _ => { st with searchResults := [] }
  | FetchOutcome.networkError => { st with searchResults := [] }

/-- The `finally` block (JSX lines 68-70): `setIsLoading(false)`. -/
def finishSearch (st : SearchState) : SearchState :=
  { st with isLoading := false }

/-- The whole submit handler `handleSearch` (JSX lines 18-71) as a state
transition, parameterized by how the single fetch settles. It returns the
new state together with the list of requests issued: `[]` when the
trimmed query is empty (the `if (!searchQuery.trim()) return;` guard,
empty string being falsy), and exactly one POST body otherwise. -/
def handleSearch (st : SearchState) (outcome : FetchOutcome) :
    SearchState × List RequestBody :=
  if jsTrim st.searchQuery = "" then (st, [])
  else
    (finishSearch (settleSearch (handleSearchStarted st) outcome),
     [requestBody st])

/-- The expand/collapse toggle on the `expandedIds` set (JSX lines
303-310): delete the id when present, insert it otherwise. -/
def toggleId (i : Nat) (s : Finset Nat) : Finset Nat :=
  if i ∈ s then s.erase i else insert i s

/-- The toggle as a state transition: only `expandedIds` changes. -/
def toggleExpanded (st : SearchState) (i : Nat) : SearchState :=
  { st with expandedIds := toggleId i st.expandedIds }

/-- JSX line 368: the loading panel renders iff `isLoading`. -/
def loadingPanelRendered (st : SearchState) : Bool :=
  st.isLoading

/-- JSX line 238: the result-card list renders iff
`searchResults.length > 0`. -/
def resultsPanelRendered (st : SearchState) : Bool :=
  st.searchResults.length > 0

/-- JSX line 344: the "no results" panel renders iff
`searchResults.length === 0 && !isLoading && searchQuery` — the third
conjunct is the truthiness of the live input text. -/
def noResultsPanelRendered (st : SearchState) : Bool :=
  st.searchResults.length == 0 && !st.isLoading && st.searchQuery ≠ ""

/-- User-visible events driving the component: editing the query input
(`onChange` at JSX line 125) and submitting the form with a given fetch
outcome. -/
inductive Event where
  | typeQuery (s : String)
  | submit (outcome : FetchOutcome)
deriving DecidableEq

/-- One event applied to the state. -/
def stepEvent (st : SearchState) : Event → SearchState
  | Event.typeQuery s => { st with searchQuery := s }
  | Event.submit outcome => (handleSearch st outcome).1

/-- A trace of events run from a state. -/
def runTrace (st : SearchState) : List Event → SearchState
  | [] => st
  | e :: es => runTrace (stepEvent st e) es

/-- Whether some submit event in the trace actually went through the
empty-query guard, i.e. a non-empty (after trimming) query was submitted. -/
def submittedNonEmpty (st : SearchState) : List Event → Bool
  | [] => false
  | Event.typeQuery s :: es => submittedNonEmpty { st with searchQuery := s } es
  | Event.submit outcome :: es =>
      decide (jsTrim st.searchQuery ≠ "") ||
        submittedNonEmpty (stepEvent st (Event.submit outcome)) es

/-- A state that differs from the initial one only in the typed query. -/
def queryState (q : String) : SearchState :=
  { initState with searchQuery := q }

/-- The scenario item of the spec:
`{"score":0.87,"record":{"title":"T","authors":"A","journal":"J",
"year":2023,"abstract":"...","mesh_terms":["x"]}}` (both URLs absent). -/
def scenarioItem : ResponseItem :=
  { score := some (87 / 100 : Rat)
    record := some
      { title := some "T", authors := some "A", journal := some "J"
        year := some 2023, abstract := some "...", mesh_terms := some ["x"]
        url_full_text := none, url_pubmed := none } }

/-- `jsTrim` of the empty string is empty, so a query whose trim is
non-empty is itself non-empty. -/
theorem jsTrim_ne_empty {q : String} (h : jsTrim q ≠ "") : q ≠ "" := by
  intro he
  exact h (by rw [he]; rfl)

/-- C1: normalization is shape-invariant. A bare array and an
object-wrapped response carrying the same items normalize to
field-for-field identical lists of the same length, both at the
normalization function and through the whole submit handler. -/
theorem c1_normalization_shape_invariant (st : SearchState)
    (items : List ResponseItem) (t : Option Nat) (r : Option String) :
    normalizeData (ResponseData.obj (some items) t r) =
      normalizeData (ResponseData.arr items) ∧
    (normalizeData (ResponseData.obj (some items) t r)).length =
      (normalizeData (ResponseData.arr items)).length ∧
    (handleSearch st (FetchOutcome.success
        (ResponseData.obj (some items) t r))).1.searchResults =
      (handleSearch st (FetchOutcome.success
        (ResponseData.arr items))).1.searchResults := by
  refine ⟨rfl, rfl, ?_⟩
  by_cases hq : jsTrim st.searchQuery = "" <;>
    simp [handleSearch, hq, finishSearch, settleSearch, handleSearchStarted,
      normalizeData, extractList]

/-- C2: normalization defaults every absent field (strings to `""`, the
year to the empty string, the score to `0`, `mesh_terms` to `[]`, both
URLs to `null`) — stated for the fully-absent item and for an item whose
record merely lacks `mesh_terms` — and the spec's scenario response
normalizes to exactly one result with `relevanceScore = 0.87`,
`title = "T"`, `mesh_terms = ["x"]`, `url_pubmed = null`. The embedding
is a total function, so no input throws. -/
theorem c2_normalization_defaults (idx : Nat) (s : Option Rat)
    (rec : PubRecord) :
    normalizeItem idx { score := none, record := none } =
      { id := idx + 1, title := "", authors := "", journal := ""
        year := JsYear.str "", abstract := "", relevanceScore := 0
        mesh_terms := [], url_full_text := none, url_pubmed := none } ∧
    (normalizeItem idx
        { score := s, record := some { rec with mesh_terms := none } }).mesh_terms
      = [] ∧
    normalizeData (ResponseData.arr [scenarioItem]) =
      [{ id := 1, title := "T", authors := "A", journal := "J"
         year := JsYear.num 2023, abstract := "..."
         relevanceScore := 87 / 100, mesh_terms := ["x"]
         url_full_text := none, url_pubmed := none }] :=
  ⟨rfl, rfl, rfl⟩

/-- C3: on a non-2xx HTTP status or a network failure, the submit handler
clears the result list to empty, preserves the typed query, and leaves the
state displaying the "no results" messaging; the embedding returns
normally (the exception is absorbed by the `catch`, never propagated). -/
theorem c3_failure_recovery (st : SearchState) (status : Nat)
    (h : jsTrim st.searchQuery ≠ "") :
    ((handleSearch st (FetchOutcome.httpError status)).1.searchResults = [] ∧
     (handleSearch st (FetchOutcome.httpError status)).1.searchQuery =
       st.searchQuery ∧
     noResultsPanelRendered
       (handleSearch st (FetchOutcome.httpError status)).1 = true) ∧
    ((handleSearch st FetchOutcome.networkError).1.searchResults = [] ∧
     (handleSearch st FetchOutcome.networkError).1.searchQuery =
       st.searchQuery ∧
     noResultsPanelRendered
       (handleSearch st FetchOutcome.networkError).1 = true) := by
  have hq : st.searchQuery ≠ "" := jsTrim_ne_empty h
  constructor <;>
    simp [handleSearch, h, finishSearch, settleSearch, handleSearchStarted,
      noResultsPanelRendered, hq]

/-- Witness for C3 at the query "cancer" and status 500. -/
theorem c3_failure_recovery_witness :
    ((handleSearch (queryState "cancer")
        (FetchOutcome.httpError 500)).1.searchResults = [] ∧
     (handleSearch (queryState "cancer")
        (FetchOutcome.httpError 500)).1.searchQuery =
       (queryState "cancer").searchQuery ∧
     noResultsPanelRendered
       (handleSearch (queryState "cancer")
         (FetchOutcome.httpError 500)).1 = true) ∧
    ((handleSearch (queryState "cancer")
        FetchOutcome.networkError).1.searchResults = [] ∧
     (handleSearch (queryState "cancer")
        FetchOutcome.networkError).1.searchQuery =
       (queryState "cancer").searchQuery ∧
     noResultsPanelRendered
       (handleSearch (queryState "cancer")
         FetchOutcome.networkError).1 = true) :=
  c3_failure_recovery (queryState "cancer") 500 (by decide)

/-- C4: for a query that survives trimming, the loading flag reads `true`
in the in-flight state set at the start of the handler and `false` after
the handler completes, whatever the outcome (success, HTTP error, or
network failure) — the `finally` clears it on every path. -/
theorem c4_loading_cleared (st : SearchState) (outcome : FetchOutcome)
    (h : jsTrim st.searchQuery ≠ "") :
    (handleSearchStarted st).isLoading = true ∧
    (handleSearch st outcome).1.isLoading = false := by
  refine ⟨rfl, ?_⟩
  simp [handleSearch, h, finishSearch]

/-- Witness for C4 at the query "q" and a network failure. -/
theorem c4_loading_cleared_witness :
    (handleSearchStarted (queryState "q")).isLoading = true ∧
    (handleSearch (queryState "q") FetchOutcome.networkError).1.isLoading
      = false :=
  c4_loading_cleared (queryState "q") FetchOutcome.networkError (by decide)

/-- C5: a query that is empty after trimming makes the submit handler a
silent no-op: zero requests are issued and the whole state (result list,
loading flag, metadata side channel, everything) is returned unchanged. -/
theorem c5_empty_query_noop (st : SearchState) (outcome : FetchOutcome)
    (h : jsTrim st.searchQuery = "") :
    handleSearch st outcome = (st, []) := by
  simp [handleSearch, h]

/-- Witness for C5 at the whitespace-only query "   ". -/
theorem c5_empty_query_noop_witness :
    handleSearch (queryState "   ") FetchOutcome.networkError =
      (queryState "   ", []) :=
  c5_empty_query_noop (queryState "   ") FetchOutcome.networkError (by decide)

/-- C6: a query that survives trimming issues exactly one POST body
carrying the live query, mode and MeSH toggle plus `max_results = 25` and
`retmax = 200`; with the default mode and toggle, submitting
"cancer immunotherapy" sends exactly the spec's scenario body. -/
theorem c6_request_body (st : SearchState) (outcome : FetchOutcome)
    (h : jsTrim st.searchQuery ≠ "") :
    (handleSearch st outcome).2 =
      [{ query := st.searchQuery, mode := st.mode, use_mesh := st.useMesh
         max_results := 25, retmax := 200 }] ∧
    (handleSearch (queryState "cancer immunotherapy") outcome).2 =
      [{ query := "cancer immunotherapy", mode := "semantic"
         use_mesh := true, max_results := 25, retmax := 200 }] := by
  constructor
  · simp [handleSearch, h, requestBody]
  · have hne : jsTrim "cancer immunotherapy" ≠ "" := by decide
    simp [handleSearch, hne, requestBody, queryState, initState]

/-- Witness for C6 at the query "x" and a network failure. -/
theorem c6_request_body_witness :
    (handleSearch (queryState "x") FetchOutcome.networkError).2 =
      [{ query := (queryState "x").searchQuery, mode := (queryState "x").mode
         use_mesh := (queryState "x").useMesh
         max_results := 25, retmax := 200 }] ∧
    (handleSearch (queryState "cancer immunotherapy")
        FetchOutcome.networkError).2 =
      [{ query := "cancer immunotherapy", mode := "semantic"
         use_mesh := true, max_results := 25, retmax := 200 }] :=
  c6_request_body (queryState "x") FetchOutcome.networkError (by decide)

/-- A reachable mid-flight state: after a successful search for "cancer"
returned one item, the user resubmits and `setIsLoading(true)` has run —
the request of the second search is in flight while the previous results
are still in state. -/
def midSecondSearch : SearchState :=
  handleSearchStarted (runTrace initState
    [Event.typeQuery "cancer",
     Event.submit (FetchOutcome.success (ResponseData.arr [scenarioItem]))])

/-- C7 fails on the code: the result-card list renders on
`searchResults.length > 0` alone, with no `!isLoading` guard, so in the
reachable state `midSecondSearch` (loading with the previous results
still present) the loading panel and the result cards render together. -/
theorem c7_loading_counterexample :
    ¬ (∀ st : SearchState, st.isLoading = true →
        loadingPanelRendered st = true ∧ resultsPanelRendered st = false ∧
        noResultsPanelRendered st = false) := by
  intro hclaim
  have h := hclaim midSecondSearch (by decide)
  exact absurd h.2.1 (by decide)

/-- C7 amended: whenever the loading flag is true, the loading panel is
rendered and the "no results" panel is suppressed, but the result-card
list is not suppressed by loading — it renders exactly when the result
list is non-empty. -/
theorem c7_loading_panels (st : SearchState) (h : st.isLoading = true) :
    loadingPanelRendered st = true ∧ noResultsPanelRendered st = false ∧
    (resultsPanelRendered st = true ↔ st.searchResults ≠ []) := by
  refine ⟨h, ?_, ?_⟩
  · simp [noResultsPanelRendered, h]
  · simp [resultsPanelRendered, List.length_pos]

/-- Witness for the amended C7 at the mid-flight state. -/
theorem c7_loading_panels_witness :
    loadingPanelRendered midSecondSearch = true ∧
    noResultsPanelRendered midSecondSearch = false ∧
    (resultsPanelRendered midSecondSearch = true ↔
      midSecondSearch.searchResults ≠ []) :=
  c7_loading_panels midSecondSearch (by decide)

/-- C8 fails on the code: the "no results" panel gates on the truthiness
of the live input text (`searchQuery`), not on a query having been
submitted. Typing "x" without ever submitting renders the panel even
though no query was submitted. -/
theorem c8_no_results_counterexample :
    ¬ (∀ es : List Event,
        noResultsPanelRendered (runTrace initState es) = true ↔
          ((runTrace initState es).searchResults = [] ∧
           (runTrace initState es).isLoading = false ∧
           submittedNonEmpty initState es = true)) := by
  intro hclaim
  have h := (hclaim [Event.typeQuery "x"]).mp (by decide)
  exact absurd h.2.2 (by decide)

/-- C8 amended: the "no results" panel renders exactly when the result
list is empty, loading is false, and the currently typed query text is
non-empty — whether or not it was ever submitted; the pristine idle state
(nothing typed, nothing submitted) renders neither the panel nor the
result list. -/
theorem c8_no_results_panel (es : List Event) :
    (noResultsPanelRendered (runTrace initState es) = true ↔
      ((runTrace initState es).searchResults = [] ∧
       (runTrace initState es).isLoading = false ∧
       (runTrace initState es).searchQuery ≠ "")) ∧
    noResultsPanelRendered initState = false ∧
    resultsPanelRendered initState = false := by
  refine ⟨?_, by decide, by decide⟩
  simp [noResultsPanelRendered, List.length_eq_zero, and_assoc]

/-- C9: toggling the same identifier twice returns the expanded set to
its original membership (the toggle is an involution), and a toggle never
touches the result list — in particular every abstract text is unchanged. -/
theorem c9_toggle_involution (i : Nat) (s : Finset Nat) (st : SearchState) :
    toggleId i (toggleId i s) = s ∧
    (toggleExpanded st i).searchResults = st.searchResults ∧
    (toggleExpanded st i).searchResults.map SearchResult.abstract =
      st.searchResults.map SearchResult.abstract := by
  refine ⟨?_, rfl, rfl⟩
  by_cases h : i ∈ s
  · have h1 : toggleId i s = s.erase i := if_pos h
    rw [h1, toggleId, if_neg (Finset.not_mem_erase i s),
      Finset.insert_erase h]
  · have h1 : toggleId i s = insert i s := if_neg h
    rw [h1, toggleId, if_pos (Finset.mem_insert_self i s),
      Finset.erase_insert h]

/-- Any number of searches folded over the state. -/
def applySearches (st : SearchState) (outcomes : List FetchOutcome) :
    SearchState :=
  outcomes.foldl (fun s o => (handleSearch s o).1) st

/-- A failed search on a non-empty query only clears the result list and
leaves the loading flag false; every other field is untouched. -/
theorem handleSearch_failure_state (st : SearchState) (o : FetchOutcome)
    (h : jsTrim st.searchQuery ≠ "") (ho : o.isFailure = true) :
    (handleSearch st o).1 =
      { st with searchResults := [], isLoading := false } := by
  cases o with
  | success data => simp [FetchOutcome.isFailure] at ho
  | httpError status =>
      simp [handleSearch, h, finishSearch, settleSearch, handleSearchStarted]
  | networkError =>
      simp [handleSearch, h, finishSearch, settleSearch, handleSearchStarted]

/-- A search with a failure outcome preserves the metadata side channel
and the typed query, whether or not the empty-query guard fired. -/
theorem handleSearch_failure_meta (st : SearchState) (o : FetchOutcome)
    (ho : o.isFailure = true) :
    (handleSearch st o).1.searchMeta = st.searchMeta ∧
    (handleSearch st o).1.searchQuery = st.searchQuery := by
  by_cases h : jsTrim st.searchQuery = ""
  · simp [handleSearch, h]
  · cases o with
    | success data => simp [FetchOutcome.isFailure] at ho
    | httpError status =>
        simp [handleSearch, h, finishSearch, settleSearch, handleSearchStarted]
    | networkError =>
        simp [handleSearch, h, finishSearch, settleSearch, handleSearchStarted]

/-- The metadata side channel survives any sequence of failed searches. -/
theorem applySearches_failures_meta (outcomes : List FetchOutcome) :
    ∀ st : SearchState, (∀ o ∈ outcomes, o.isFailure = true) →
      (applySearches st outcomes).searchMeta = st.searchMeta := by
  induction outcomes with
  | nil => intro st _; rfl
  | cons o rest ih =>
      intro st hall
      have h1 := (handleSearch_failure_meta st o (hall o (by simp))).1
      have h2 := ih (handleSearch st o).1 (fun x hx => hall x (by simp [hx]))
      calc (applySearches st (o :: rest)).searchMeta
          = (applySearches (handleSearch st o).1 rest).searchMeta := rfl
        _ = (handleSearch st o).1.searchMeta := h2
        _ = st.searchMeta := h1

/-- C10: a failed search (non-2xx or network failure) on a non-empty
query modifies only the result list (cleared to empty, loading left
false): every other field, in particular the stored pagination-metadata
side channel, is untouched — and metadata written earlier persists
unchanged across any number of subsequent failed searches. -/
theorem c10_failure_frame (st : SearchState) (o : FetchOutcome)
    (outcomes : List FetchOutcome) (h : jsTrim st.searchQuery ≠ "")
    (ho : o.isFailure = true)
    (hall : ∀ x ∈ outcomes, x.isFailure = true) :
    (handleSearch st o).1 =
      { st with searchResults := [], isLoading := false } ∧
    (handleSearch st o).1.searchMeta = st.searchMeta ∧
    (applySearches st outcomes).searchMeta = st.searchMeta := by
  refine ⟨handleSearch_failure_state st o h ho, ?_,
    applySearches_failures_meta outcomes st hall⟩
  rw [handleSearch_failure_state st o h ho]

/-- Witness for C10 at the query "q", an HTTP 500 failure, and a
subsequent run of two more failures. -/
theorem c10_failure_frame_witness :
    (handleSearch (queryState "q") (FetchOutcome.httpError 500)).1 =
      { queryState "q" with searchResults := [], isLoading := false } ∧
    (handleSearch (queryState "q")
        (FetchOutcome.httpError 500)).1.searchMeta =
      (queryState "q").searchMeta ∧
    (applySearches (queryState "q")
        [FetchOutcome.httpError 500, FetchOutcome.networkError]).searchMeta =
      (queryState "q").searchMeta :=
  c10_failure_frame (queryState "q") (FetchOutcome.httpError 500)
    [FetchOutcome.httpError 500, FetchOutcome.networkError]
    (by decide) rfl (by decide)
